import Mathlib

/-!
Shallow embedding of the BlockDesk helpdesk contract (Solidity source,
`src/unnamed/part_000`).  Storage mappings become total functions with the
zero-valued default that the ledger provides; `address(0)` is the absence
sentinel for assignees; `msg.sender` and `block.timestamp` become explicit
`sender` / `now` arguments.  Every mutating entry point is translated
statement by statement: each `require` that fails aborts with the error of
the taxonomy in spec §7 (NotFound / Unauthorized / InvalidArgument) and
returns the storage as it stood at that point, which — since every write in
the source happens after all requires — is the input storage.
-/

/-- Ticket lifecycle states, in source declaration order. -/
inductive TicketStatus
  | Open
  | InProgress
  | Resolved
  | Closed
deriving DecidableEq, Repr

/-- Two-tier role model; `User` is the mapping default (enum value 0). -/
inductive UserRole
  | User
  | Manager
deriving DecidableEq, Repr

/-- Addresses are modelled as naturals; 0 plays the role of address(0). -/
abbrev Address := Nat

/-- The Ticket struct of the contract. -/
structure Ticket where
  id : Nat
  creator : Address
  assignedTo : Address
  title : String
  description : String
  attachmentHash : String
  status : TicketStatus
  createdAt : Nat
  updatedAt : Nat
deriving DecidableEq, Repr

/-- The zero-valued Ticket record a Solidity mapping yields for an absent key. -/
def zeroTicket : Ticket :=
  { id := 0, creator := 0, assignedTo := 0, title := "", description := "",
    attachmentHash := "", status := TicketStatus.Open, createdAt := 0, updatedAt := 0 }

/-- The Comment struct of the contract. -/
structure Comment where
  id : Nat
  ticketId : Nat
  author : Address
  content : String
  createdAt : Nat
deriving DecidableEq, Repr

/-- Error taxonomy of spec §7, one constructor per require class. -/
inductive Err
  | NotFound
  | Unauthorized
  | InvalidArgument
deriving DecidableEq, Repr

/-- The contract storage: the three mappings and the two id counters. -/
structure BlockDesk where
  tickets : Nat → Ticket
  userRoles : Address → UserRole
  ticketComments : Nat → List Comment
  nextTicketId : Nat
  nextCommentId : Nat

/-- The constructor: counters start at 1, the deployer is seeded as Manager,
all mappings hold their zero defaults. -/
def initState (deployer : Address) : BlockDesk :=
  { tickets := fun _ => zeroTicket
    userRoles := fun a => if a = deployer then UserRole.Manager else UserRole.User
    ticketComments := fun _ => []
    nextTicketId := 1
    nextCommentId := 1 }

/-- Point update of the tickets mapping. -/
def setTicket (s : BlockDesk) (ticketId : Nat) (t : Ticket) : BlockDesk :=
  { s with tickets := fun k => if k = ticketId then t else s.tickets k }

/-- createTicket: issues nextTicketId (post-increment), stores the fresh
ticket with status Open, no assignee, creator = sender, both timestamps =
now; returns the issued id.  It has no require and never fails. -/
def createTicket (s : BlockDesk) (sender : Address) (now : Nat)
    (title description attachmentHash : String) : BlockDesk × Nat :=
  let ticketId := s.nextTicketId
  let s1 : BlockDesk := { s with nextTicketId := s.nextTicketId + 1 }
  (setTicket s1 ticketId
    { id := ticketId, creator := sender, assignedTo := 0, title := title,
      description := description, attachmentHash := attachmentHash,
      status := TicketStatus.Open, createdAt := now, updatedAt := now },
   ticketId)

/-- updateStatus: existence check, then the creator / assignedTo / Manager
authorization disjunction, then the two field writes. -/
def updateStatus (s : BlockDesk) (sender : Address) (now : Nat)
    (ticketId : Nat) (status : TicketStatus) : BlockDesk × Option Err :=
  if (s.tickets ticketId).id = 0 then (s, some Err.NotFound)
  else if (s.tickets ticketId).creator = sender ∨
      (s.tickets ticketId).assignedTo = sender ∨
      s.userRoles sender = UserRole.Manager then
    (setTicket s ticketId
      { s.tickets ticketId with status := status, updatedAt := now }, none)
  else (s, some Err.Unauthorized)

/-- assignTicket: onlyManager modifier, existence check, assignee-is-Manager
check, then writes assignedTo, status := InProgress, updatedAt. -/
def assignTicket (s : BlockDesk) (sender : Address) (now : Nat)
    (ticketId : Nat) (assignee : Address) : BlockDesk × Option Err :=
  if s.userRoles sender ≠ UserRole.Manager then (s, some Err.Unauthorized)
  else if (s.tickets ticketId).id = 0 then (s, some Err.NotFound)
  else if s.userRoles assignee ≠ UserRole.Manager then (s, some Err.InvalidArgument)
  else
    (setTicket s ticketId
      { s.tickets ticketId with assignedTo := assignee, status := TicketStatus.InProgress, updatedAt := now }, none)

/-- resolveTicket: onlyManager modifier, existence check, status := Resolved. -/
def resolveTicket (s : BlockDesk) (sender : Address) (now : Nat)
    (ticketId : Nat) : BlockDesk × Option Err :=
  if s.userRoles sender ≠ UserRole.Manager then (s, some Err.Unauthorized)
  else if (s.tickets ticketId).id = 0 then (s, some Err.NotFound)
  else
    (setTicket s ticketId
      { s.tickets ticketId with status := TicketStatus.Resolved, updatedAt := now }, none)

/-- closeTicket: onlyManager modifier, existence check, status := Closed. -/
def closeTicket (s : BlockDesk) (sender : Address) (now : Nat)
    (ticketId : Nat) : BlockDesk × Option Err :=
  if s.userRoles sender ≠ UserRole.Manager then (s, some Err.Unauthorized)
  else if (s.tickets ticketId).id = 0 then (s, some Err.NotFound)
  else
    (setTicket s ticketId
      { s.tickets ticketId with status := TicketStatus.Closed, updatedAt := now }, none)

/-- reopenTicket: onlyManager modifier, existence check, source state must be
Closed or Resolved, then status := Open and the assignment is cleared. -/
def reopenTicket (s : BlockDesk) (sender : Address) (now : Nat)
    (ticketId : Nat) : BlockDesk × Option Err :=
  if s.userRoles sender ≠ UserRole.Manager then (s, some Err.Unauthorized)
  else if (s.tickets ticketId).id = 0 then (s, some Err.NotFound)
  else if (s.tickets ticketId).status = TicketStatus.Closed ∨
      (s.tickets ticketId).status = TicketStatus.Resolved then
    (setTicket s ticketId
      { s.tickets ticketId with status := TicketStatus.Open, assignedTo := 0, updatedAt := now }, none)
  else (s, some Err.InvalidArgument)

/-- addComment: existence check, non-empty content check, then issues
nextCommentId (post-increment) and appends the new Comment to the list of
the given ticket. -/
def addComment (s : BlockDesk) (sender : Address) (now : Nat)
    (ticketId : Nat) (content : String) : BlockDesk × Option Err :=
  if (s.tickets ticketId).id = 0 then (s, some Err.NotFound)
  else if content.length = 0 then (s, some Err.InvalidArgument)
  else
    let commentId := s.nextCommentId
    let s1 : BlockDesk := { s with nextCommentId := s.nextCommentId + 1 }
    ({ s1 with ticketComments := fun k =>
        if k = ticketId then
          s1.ticketComments k ++
            [{ id := commentId, ticketId := ticketId, author := sender,
               content := content, createdAt := now }]
        else s1.ticketComments k }, none)

/-- setUserRole: onlyManager modifier, then overwrites the role table entry. -/
def setUserRole (s : BlockDesk) (sender : Address) (user : Address)
    (role : UserRole) : BlockDesk × Option Err :=
  if s.userRoles sender ≠ UserRole.Manager then (s, some Err.Unauthorized)
  else ({ s with userRoles := fun a => if a = user then role else s.userRoles a }, none)

/-- One mutating entry-point call with its explicit caller and timestamp. -/
inductive Op
  | create (sender : Address) (now : Nat) (title description attachmentHash : String)
  | update (sender : Address) (now : Nat) (ticketId : Nat) (status : TicketStatus)
  | assign (sender : Address) (now : Nat) (ticketId : Nat) (assignee : Address)
  | resolve (sender : Address) (now : Nat) (ticketId : Nat)
  | close (sender : Address) (now : Nat) (ticketId : Nat)
  | reopen (sender : Address) (now : Nat) (ticketId : Nat)
  | comment (sender : Address) (now : Nat) (ticketId : Nat) (content : String)
  | setRole (sender : Address) (user : Address) (role : UserRole)

/-- Applies one call to the storage; the ledger reverts a failed call, which
by construction returns the input storage unchanged. -/
def applyOp (s : BlockDesk) : Op → BlockDesk × Option Err
  | Op.create sender now t d a => ((createTicket s sender now t d a).1, none)
  | Op.update sender now tid st => updateStatus s sender now tid st
  | Op.assign sender now tid who => assignTicket s sender now tid who
  | Op.resolve sender now tid => resolveTicket s sender now tid
  | Op.close sender now tid => closeTicket s sender now tid
  | Op.reopen sender now tid => reopenTicket s sender now tid
  | Op.comment sender now tid c => addComment s sender now tid c
  | Op.setRole sender user role => setUserRole s sender user role

/-- The storage after a ledger-serialized sequence of calls. -/
def applyOps (s : BlockDesk) (ops : List Op) : BlockDesk :=
  ops.foldl (fun s op => (applyOp s op).1) s

/-- A storage state reachable from deployment by some call sequence. -/
def Reachable (s : BlockDesk) : Prop :=
  ∃ deployer ops, s = applyOps (initState deployer) ops

/-- Decides whether a call is a createTicket call. -/
def isCreate : Op → Bool
  | Op.create _ _ _ _ _ => true
  | _ => false

/-- Number of createTicket calls in a sequence. -/
def countCreates (ops : List Op) : Nat := (ops.filter isCreate).length

/-- All stored comment ids are below the comment id counter. -/
def commentIdsBelow (s : BlockDesk) : Prop :=
  ∀ tid c, c ∈ s.ticketComments tid → c.id < s.nextCommentId

/-! Sample storages used to instantiate the theorems on concrete inputs:
the contract is deployed by address 1, user 2 creates ticket 1, address 3
is promoted to a second Manager, and the ticket is closed or assigned. -/

/-- Freshly deployed contract, deployer address 1. -/
def s0 : BlockDesk := initState 1

/-- After user 2 creates ticket 1 at time 10. -/
def sCreated : BlockDesk := (createTicket s0 2 10 "printer" "desc" "qm").1

/-- After the deployer closes ticket 1 at time 11. -/
def sClosed : BlockDesk := (closeTicket sCreated 1 11 1).1

/-- After the deployer promotes address 3 to Manager. -/
def sTwoMgrs : BlockDesk := (setUserRole sCreated 1 3 UserRole.Manager).1

/-- Two Managers and ticket 1 closed. -/
def sTwoMgrsClosed : BlockDesk := (closeTicket sTwoMgrs 1 11 1).1

/-- Two Managers and ticket 1 assigned to Manager 3. -/
def sAssigned : BlockDesk := (assignTicket sTwoMgrs 1 12 1 3).1

/-! Helper lemmas shared by several developments below. -/

/-- Projections of a point update of the tickets mapping. -/
lemma setTicket_tickets_self (s : BlockDesk) (ticketId : Nat) (t : Ticket) :
    (setTicket s ticketId t).tickets ticketId = t := by
  simp [setTicket]

/-! Theorems about the claims, in claim order. -/

/-- C8: whenever a mutating entry point rejects a call (NotFound,
Unauthorized or InvalidArgument), the storage it hands back is exactly the
input storage: every require in the source precedes every write, so the
ledger-level revert is observationally a no-op. -/
theorem errors_no_state_change (s : BlockDesk) (op : Op) (e : Err)
    (h : (applyOp s op).2 = some e) : (applyOp s op).1 = s := by
  cases op <;>
    simp only [applyOp, updateStatus, assignTicket, resolveTicket, closeTicket,
      reopenTicket, addComment, setUserRole] at h ⊢ <;>
    first
      | exact Option.noConfusion h
      | (split_ifs at h ⊢ <;> simp_all)

/-- Witness for C8 at a concrete failing call: updateStatus on the absent
ticket 99 of a fresh deployment fails and returns the storage unchanged. -/
theorem errors_no_state_change_witness :
    (applyOp s0 (Op.update 2 5 99 TicketStatus.Closed)).2 = some Err.NotFound ∧
    (applyOp s0 (Op.update 2 5 99 TicketStatus.Closed)).1 = s0 :=
  ⟨by decide, errors_no_state_change s0 (Op.update 2 5 99 TicketStatus.Closed)
    Err.NotFound (by decide)⟩

/-- C1: for an existing ticket and a Manager caller, reopenTicket succeeds
exactly when the current status is Closed or Resolved, fails with
InvalidArgument from any other status, and on success sets status Open and
clears the assignee (address 0, the absence sentinel). -/
theorem reopen_state_gate (s : BlockDesk) (sender : Address) (now tid : Nat)
    (hex : (s.tickets tid).id ≠ 0) (hmgr : s.userRoles sender = UserRole.Manager) :
    ((reopenTicket s sender now tid).2 = none ↔
      (s.tickets tid).status = TicketStatus.Closed ∨
      (s.tickets tid).status = TicketStatus.Resolved) ∧
    (¬((s.tickets tid).status = TicketStatus.Closed ∨
       (s.tickets tid).status = TicketStatus.Resolved) →
      (reopenTicket s sender now tid).2 = some Err.InvalidArgument) ∧
    ((s.tickets tid).status = TicketStatus.Closed ∨
     (s.tickets tid).status = TicketStatus.Resolved →
      ((reopenTicket s sender now tid).1.tickets tid).status = TicketStatus.Open ∧
      ((reopenTicket s sender now tid).1.tickets tid).assignedTo = 0) := by
  unfold reopenTicket
  rw [if_neg (by simp [hmgr]), if_neg hex]
  by_cases hst : (s.tickets tid).status = TicketStatus.Closed ∨
      (s.tickets tid).status = TicketStatus.Resolved
  · rw [if_pos hst]
    exact ⟨by simp [hst], fun hn => absurd hst hn,
      fun _ => by simp [setTicket_tickets_self]⟩
  · rw [if_neg hst]
    exact ⟨by simp [hst], fun _ => rfl, fun h => absurd h hst⟩

/-- Witness for C1 at the concrete closed ticket 1 of sClosed, reopened by
the deployer. -/
theorem reopen_state_gate_witness :
    (sClosed.tickets 1).id ≠ 0 ∧ sClosed.userRoles 1 = UserRole.Manager ∧
    (((reopenTicket sClosed 1 12 1).2 = none ↔
      (sClosed.tickets 1).status = TicketStatus.Closed ∨
      (sClosed.tickets 1).status = TicketStatus.Resolved) ∧
     (¬((sClosed.tickets 1).status = TicketStatus.Closed ∨
        (sClosed.tickets 1).status = TicketStatus.Resolved) →
       (reopenTicket sClosed 1 12 1).2 = some Err.InvalidArgument) ∧
     ((sClosed.tickets 1).status = TicketStatus.Closed ∨
      (sClosed.tickets 1).status = TicketStatus.Resolved →
       ((reopenTicket sClosed 1 12 1).1.tickets 1).status = TicketStatus.Open ∧
       ((reopenTicket sClosed 1 12 1).1.tickets 1).assignedTo = 0)) :=
  ⟨by decide, by decide, reopen_state_gate sClosed 1 12 1 (by decide) (by decide)⟩

/-- C2: for an existing ticket and a Manager caller, resolveTicket and
closeTicket succeed from every current status, and assignTicket with a
Manager assignee succeeds from every current status and sets InProgress —
none of the three inspects the source state (only reopenTicket does). -/
theorem permissive_transitions (s : BlockDesk) (sender who : Address) (now tid : Nat)
    (hex : (s.tickets tid).id ≠ 0) (hmgr : s.userRoles sender = UserRole.Manager) :
    ((resolveTicket s sender now tid).2 = none ∧
      ((resolveTicket s sender now tid).1.tickets tid).status = TicketStatus.Resolved) ∧
    ((closeTicket s sender now tid).2 = none ∧
      ((closeTicket s sender now tid).1.tickets tid).status = TicketStatus.Closed) ∧
    (s.userRoles who = UserRole.Manager →
      (assignTicket s sender now tid who).2 = none ∧
      ((assignTicket s sender now tid who).1.tickets tid).status = TicketStatus.InProgress ∧
      ((assignTicket s sender now tid who).1.tickets tid).assignedTo = who) := by
  refine ⟨?_, ?_, fun hwho => ?_⟩
  · unfold resolveTicket
    rw [if_neg (by simp [hmgr]), if_neg hex]
    exact ⟨rfl, by simp [setTicket_tickets_self]⟩
  · unfold closeTicket
    rw [if_neg (by simp [hmgr]), if_neg hex]
    exact ⟨rfl, by simp [setTicket_tickets_self]⟩
  · unfold assignTicket
    rw [if_neg (by simp [hmgr]), if_neg hex, if_neg (by simp [hwho])]
    exact ⟨rfl, by simp [setTicket_tickets_self], by simp [setTicket_tickets_self]⟩

/-- Witness for C2 on the concrete storage sTwoMgrsClosed, whose ticket 1 is
Closed: a Closed ticket is directly assignable (to Manager 3) and becomes
InProgress without going through reopen. -/
theorem permissive_transitions_witness :
    (sTwoMgrsClosed.tickets 1).status = TicketStatus.Closed ∧
    ((resolveTicket sTwoMgrsClosed 1 13 1).2 = none ∧
      ((resolveTicket sTwoMgrsClosed 1 13 1).1.tickets 1).status = TicketStatus.Resolved) ∧
    ((closeTicket sTwoMgrsClosed 1 13 1).2 = none ∧
      ((closeTicket sTwoMgrsClosed 1 13 1).1.tickets 1).status = TicketStatus.Closed) ∧
    ((assignTicket sTwoMgrsClosed 1 13 1 3).2 = none ∧
      ((assignTicket sTwoMgrsClosed 1 13 1 3).1.tickets 1).status = TicketStatus.InProgress ∧
      ((assignTicket sTwoMgrsClosed 1 13 1 3).1.tickets 1).assignedTo = 3) := by
  have h := permissive_transitions sTwoMgrsClosed 1 3 13 1 (by decide) (by decide)
  exact ⟨by decide, h.1, h.2.1, h.2.2 (by decide)⟩

/-- C4: for an existing ticket and a nonzero caller (address 0 is the
reserved absence sentinel and can never sign a call), updateStatus fails
with Unauthorized exactly when the caller is neither the creator, nor the
stored assignee, nor a Manager; when the caller is any of the three it
succeeds and sets the requested status. -/
theorem updateStatus_auth (s : BlockDesk) (sender : Address) (now tid : Nat)
    (st : TicketStatus) (hex : (s.tickets tid).id ≠ 0) (hs : sender ≠ 0) :
    ((updateStatus s sender now tid st).2 = some Err.Unauthorized ↔
      ¬((s.tickets tid).creator = sender ∨ (s.tickets tid).assignedTo = sender ∨
        s.userRoles sender = UserRole.Manager)) ∧
    ((s.tickets tid).creator = sender ∨ (s.tickets tid).assignedTo = sender ∨
      s.userRoles sender = UserRole.Manager →
      (updateStatus s sender now tid st).2 = none ∧
      ((updateStatus s sender now tid st).1.tickets tid).status = st) := by
  unfold updateStatus
  rw [if_neg hex]
  by_cases hauth : (s.tickets tid).creator = sender ∨
      (s.tickets tid).assignedTo = sender ∨ s.userRoles sender = UserRole.Manager
  · rw [if_pos hauth]
    exact ⟨by simp [hauth], fun _ => ⟨rfl, by simp [setTicket_tickets_self]⟩⟩
  · rw [if_neg hauth]
    exact ⟨by simp [hauth], fun h => absurd h hauth⟩

/-- Witness for C4: the non-privileged outsider 7 is rejected on ticket 1 of
sCreated, while the creator (user 2) succeeds. -/
theorem updateStatus_auth_witness :
    ((updateStatus sCreated 7 13 1 TicketStatus.Closed).2 = some Err.Unauthorized) ∧
    ((updateStatus sCreated 2 13 1 TicketStatus.Resolved).2 = none ∧
      ((updateStatus sCreated 2 13 1 TicketStatus.Resolved).1.tickets 1).status =
        TicketStatus.Resolved) := by
  have hout := updateStatus_auth sCreated 7 13 1 TicketStatus.Closed (by decide) (by decide)
  have hcr := updateStatus_auth sCreated 2 13 1 TicketStatus.Resolved (by decide) (by decide)
  exact ⟨hout.1.mpr (by decide), hcr.2 (Or.inl (by decide))⟩

/-- C5: for an existing ticket and a Manager caller, assignTicket fails with
InvalidArgument exactly when the proposed assignee does not hold the Manager
role, and otherwise succeeds, storing the assignee and setting InProgress. -/
theorem assign_requires_manager (s : BlockDesk) (sender who : Address) (now tid : Nat)
    (hex : (s.tickets tid).id ≠ 0) (hmgr : s.userRoles sender = UserRole.Manager) :
    (s.userRoles who ≠ UserRole.Manager →
      (assignTicket s sender now tid who).2 = some Err.InvalidArgument) ∧
    (s.userRoles who = UserRole.Manager →
      (assignTicket s sender now tid who).2 = none ∧
      ((assignTicket s sender now tid who).1.tickets tid).assignedTo = who ∧
      ((assignTicket s sender now tid who).1.tickets tid).status = TicketStatus.InProgress) := by
  unfold assignTicket
  rw [if_neg (by simp [hmgr]), if_neg hex]
  constructor
  · intro hwho
    rw [if_pos hwho]
  · intro hwho
    rw [if_neg (by simp [hwho])]
    exact ⟨rfl, by simp [setTicket_tickets_self], by simp [setTicket_tickets_self]⟩

/-- Witness for C5: assigning ticket 1 to the plain user 2 is rejected with
InvalidArgument, assigning it to Manager 3 succeeds. -/
theorem assign_requires_manager_witness :
    ((assignTicket sTwoMgrs 1 13 1 2).2 = some Err.InvalidArgument) ∧
    ((assignTicket sTwoMgrs 1 13 1 3).2 = none ∧
      ((assignTicket sTwoMgrs 1 13 1 3).1.tickets 1).assignedTo = 3 ∧
      ((assignTicket sTwoMgrs 1 13 1 3).1.tickets 1).status = TicketStatus.InProgress) :=
  ⟨(assign_requires_manager sTwoMgrs 1 2 13 1 (by decide) (by decide)).1 (by decide),
   (assign_requires_manager sTwoMgrs 1 3 13 1 (by decide) (by decide)).2 (by decide)⟩

/-- One call preserves the bound of stored comment ids by the counter: only
addComment touches comments, and it appends the counter value before
incrementing it. -/
lemma commentIdsBelow_applyOp (s : BlockDesk) (op : Op) (h : commentIdsBelow s) :
    commentIdsBelow (applyOp s op).1 := by
  cases op with
  | create sender now t d a => exact h
  | comment sender now tid content =>
    simp only [applyOp, addComment]
    split_ifs with h1 h2
    · exact h
    · exact h
    · intro tid2 c hc
      simp only at hc
      show c.id < s.nextCommentId + 1
      by_cases ht : tid2 = tid
      · subst ht
        rw [if_pos rfl] at hc
        rcases List.mem_append.mp hc with hold | hnew
        · exact Nat.lt_succ_of_lt (h _ _ hold)
        · rw [List.mem_singleton.mp hnew]
          exact Nat.lt_succ_self _
      · rw [if_neg ht] at hc
        exact Nat.lt_succ_of_lt (h _ _ hc)
  | update sender now tid st =>
    simp only [applyOp, updateStatus]
    split_ifs <;> exact h
  | assign sender now tid who =>
    simp only [applyOp, assignTicket]
    split_ifs <;> exact h
  | resolve sender now tid =>
    simp only [applyOp, resolveTicket]
    split_ifs <;> exact h
  | close sender now tid =>
    simp only [applyOp, closeTicket]
    split_ifs <;> exact h
  | reopen sender now tid =>
    simp only [applyOp, reopenTicket]
    split_ifs <;> exact h
  | setRole sender user role =>
    simp only [applyOp, setUserRole]
    split_ifs <;> exact h

/-- The comment-id bound is preserved along any call sequence. -/
lemma commentIdsBelow_applyOps (s : BlockDesk) (ops : List Op)
    (h : commentIdsBelow s) : commentIdsBelow (applyOps s ops) := by
  induction ops generalizing s with
  | nil => exact h
  | cons op ops ih => exact ih _ (commentIdsBelow_applyOp _ _ h)

/-- Every reachable storage keeps all stored comment ids below the counter. -/
lemma reachable_commentIdsBelow (s : BlockDesk) (h : Reachable s) :
    commentIdsBelow s := by
  obtain ⟨d, ops, rfl⟩ := h
  refine commentIdsBelow_applyOps _ _ ?_
  intro tid c hc
  simp [initState] at hc

/-- C6: on an existing ticket, addComment with empty content fails with
InvalidArgument; with non-empty content it succeeds, appends exactly one
Comment carrying the current counter value, leaves every other comment list
untouched, and — in any reachable storage — that id was never used by any
stored comment before. -/
theorem addComment_appends_fresh (s : BlockDesk) (sender : Address) (now tid : Nat)
    (content : String) (hex : (s.tickets tid).id ≠ 0) :
    (content.length = 0 →
      (addComment s sender now tid content).2 = some Err.InvalidArgument) ∧
    (content.length ≠ 0 →
      (addComment s sender now tid content).2 = none ∧
      (addComment s sender now tid content).1.ticketComments tid =
        s.ticketComments tid ++
          [{ id := s.nextCommentId, ticketId := tid, author := sender,
             content := content, createdAt := now }] ∧
      (∀ tid2, tid2 ≠ tid →
        (addComment s sender now tid content).1.ticketComments tid2 =
          s.ticketComments tid2) ∧
      (Reachable s → ∀ tid2 c, c ∈ s.ticketComments tid2 →
        c.id ≠ s.nextCommentId)) := by
  unfold addComment
  rw [if_neg hex]
  constructor
  · intro hc
    rw [if_pos hc]
  · intro hc
    rw [if_neg hc]
    refine ⟨rfl, by simp, fun tid2 ht => by simp [ht], fun hr tid2 c hc2 => ?_⟩
    exact Nat.ne_of_lt (reachable_commentIdsBelow s hr tid2 c hc2)

/-- Witness for C6 on the reachable storage sCreated: the empty comment is
rejected, the comment "ok" is appended as the single comment of ticket 1
with the fresh id 1. -/
theorem addComment_appends_fresh_witness :
    ((addComment sCreated 2 12 1 "").2 = some Err.InvalidArgument) ∧
    ((addComment sCreated 2 12 1 "ok").2 = none ∧
     (addComment sCreated 2 12 1 "ok").1.ticketComments 1 =
       sCreated.ticketComments 1 ++
         [{ id := sCreated.nextCommentId, ticketId := 1, author := 2,
            content := "ok", createdAt := 12 }] ∧
     (∀ tid2, tid2 ≠ 1 →
       (addComment sCreated 2 12 1 "ok").1.ticketComments tid2 =
         sCreated.ticketComments tid2) ∧
     (Reachable sCreated → ∀ tid2 c, c ∈ sCreated.ticketComments tid2 →
       c.id ≠ sCreated.nextCommentId)) :=
  ⟨(addComment_appends_fresh sCreated 2 12 1 "" (by decide)).1 (by decide),
   (addComment_appends_fresh sCreated 2 12 1 "ok" (by decide)).2 (by decide)⟩

/-- A call bumps the ticket-id counter exactly when it is a createTicket
call, and by exactly one. -/
lemma nextTicketId_applyOp (s : BlockDesk) (op : Op) :
    (applyOp s op).1.nextTicketId =
      s.nextTicketId + if isCreate op then 1 else 0 := by
  cases op with
  | create sender now t d a => rfl
  | update sender now tid st =>
    show (updateStatus s sender now tid st).1.nextTicketId = s.nextTicketId + 0
    unfold updateStatus
    split_ifs <;> rfl
  | assign sender now tid who =>
    show (assignTicket s sender now tid who).1.nextTicketId = s.nextTicketId + 0
    unfold assignTicket
    split_ifs <;> rfl
  | resolve sender now tid =>
    show (resolveTicket s sender now tid).1.nextTicketId = s.nextTicketId + 0
    unfold resolveTicket
    split_ifs <;> rfl
  | close sender now tid =>
    show (closeTicket s sender now tid).1.nextTicketId = s.nextTicketId + 0
    unfold closeTicket
    split_ifs <;> rfl
  | reopen sender now tid =>
    show (reopenTicket s sender now tid).1.nextTicketId = s.nextTicketId + 0
    unfold reopenTicket
    split_ifs <;> rfl
  | comment sender now tid content =>
    show (addComment s sender now tid content).1.nextTicketId = s.nextTicketId + 0
    unfold addComment
    split_ifs <;> rfl
  | setRole sender user role =>
    show (setUserRole s sender user role).1.nextTicketId = s.nextTicketId + 0
    unfold setUserRole
    split_ifs <;> rfl

/-- Along a call sequence the ticket-id counter grows by the number of
createTicket calls. -/
lemma nextTicketId_applyOps (s : BlockDesk) (ops : List Op) :
    (applyOps s ops).nextTicketId = s.nextTicketId + countCreates ops := by
  induction ops generalizing s with
  | nil => rfl
  | cons op ops ih =>
    show (applyOps (applyOp s op).1 ops).nextTicketId = _
    rw [ih, nextTicketId_applyOp]
    by_cases hc : isCreate op <;>
      simp [countCreates, List.filter_cons, hc] <;> omega

/-- C7: after any call sequence from deployment, the next createTicket call
returns id (number of prior creates) + 1 — so ids are issued 1, 2, 3, ... in
order — and the stored fresh ticket has status Open, assignee absent,
creator = caller, and both timestamps equal to the call time. -/
theorem createTicket_ids_and_fields (deployer : Address) (ops : List Op)
    (sender : Address) (now : Nat) (title description attachmentHash : String) :
    (createTicket (applyOps (initState deployer) ops) sender now
        title description attachmentHash).2 = countCreates ops + 1 ∧
    (createTicket (applyOps (initState deployer) ops) sender now
        title description attachmentHash).2 =
      (applyOps (initState deployer) ops).nextTicketId ∧
    (createTicket (applyOps (initState deployer) ops) sender now
        title description attachmentHash).1.tickets
      (createTicket (applyOps (initState deployer) ops) sender now
        title description attachmentHash).2 =
      { id := (applyOps (initState deployer) ops).nextTicketId, creator := sender,
        assignedTo := 0, title := title, description := description,
        attachmentHash := attachmentHash, status := TicketStatus.Open,
        createdAt := now, updatedAt := now } := by
  refine ⟨?_, rfl, ?_⟩
  · show (applyOps (initState deployer) ops).nextTicketId = countCreates ops + 1
    rw [nextTicketId_applyOps]
    simp [initState]
    omega
  · exact setTicket_tickets_self _ _ _

/-- C9: a successful addComment leaves the whole tickets mapping (hence every
status and updatedAt), the role table, and the ticket-id counter unchanged;
its only effects are appending one comment to the addressed ticket and
incrementing the comment-id counter. -/
theorem addComment_frame (s : BlockDesk) (sender : Address) (now tid : Nat)
    (content : String) (hex : (s.tickets tid).id ≠ 0) (hc : content.length ≠ 0) :
    (addComment s sender now tid content).2 = none ∧
    (addComment s sender now tid content).1.tickets = s.tickets ∧
    (addComment s sender now tid content).1.userRoles = s.userRoles ∧
    (addComment s sender now tid content).1.nextTicketId = s.nextTicketId ∧
    (addComment s sender now tid content).1.nextCommentId = s.nextCommentId + 1 ∧
    (addComment s sender now tid content).1.ticketComments tid =
      s.ticketComments tid ++
        [{ id := s.nextCommentId, ticketId := tid, author := sender,
           content := content, createdAt := now }] ∧
    (∀ tid2, tid2 ≠ tid →
      (addComment s sender now tid content).1.ticketComments tid2 =
        s.ticketComments tid2) := by
  unfold addComment
  rw [if_neg hex, if_neg hc]
  exact ⟨rfl, rfl, rfl, rfl, rfl, by simp, fun tid2 ht => by simp [ht]⟩

/-- Witness for C9 on sAssigned: commenting on the assigned ticket 1 changes
no ticket record and no role, only its comment list and the comment counter. -/
theorem addComment_frame_witness :
    (addComment sAssigned 2 14 1 "note").2 = none ∧
    (addComment sAssigned 2 14 1 "note").1.tickets = sAssigned.tickets ∧
    (addComment sAssigned 2 14 1 "note").1.userRoles = sAssigned.userRoles ∧
    (addComment sAssigned 2 14 1 "note").1.nextTicketId = sAssigned.nextTicketId ∧
    (addComment sAssigned 2 14 1 "note").1.nextCommentId = sAssigned.nextCommentId + 1 ∧
    (addComment sAssigned 2 14 1 "note").1.ticketComments 1 =
      sAssigned.ticketComments 1 ++
        [{ id := sAssigned.nextCommentId, ticketId := 1, author := 2,
           content := "note", createdAt := 14 }] ∧
    (∀ tid2, tid2 ≠ 1 →
      (addComment sAssigned 2 14 1 "note").1.ticketComments tid2 =
        sAssigned.ticketComments tid2) :=
  addComment_frame sAssigned 2 14 1 "note" (by decide) (by decide)

/-- C10: setUserRole by a Manager rewrites exactly the one role-table entry
and nothing else; therefore demoting the current assignee of a ticket leaves
that ticket pointing at a now-non-Manager assignee who still passes the
updateStatus authorization guard — the assignee-is-Manager rule is checked
only at assign time. -/
theorem setUserRole_frame (s : BlockDesk) (sender user : Address) (role : UserRole)
    (hmgr : s.userRoles sender = UserRole.Manager) :
    (setUserRole s sender user role).2 = none ∧
    (setUserRole s sender user role).1.tickets = s.tickets ∧
    (setUserRole s sender user role).1.ticketComments = s.ticketComments ∧
    (setUserRole s sender user role).1.nextTicketId = s.nextTicketId ∧
    (setUserRole s sender user role).1.nextCommentId = s.nextCommentId ∧
    (setUserRole s sender user role).1.userRoles user = role ∧
    (∀ a, a ≠ user → (setUserRole s sender user role).1.userRoles a = s.userRoles a) ∧
    (∀ tid now2 st, role = UserRole.User → (s.tickets tid).id ≠ 0 →
      (s.tickets tid).assignedTo = user →
      (setUserRole s sender user role).1.userRoles
          (((setUserRole s sender user role).1.tickets tid).assignedTo) = UserRole.User ∧
      (updateStatus (setUserRole s sender user role).1 user now2 tid st).2 = none ∧
      ((updateStatus (setUserRole s sender user role).1 user now2 tid st).1.tickets
          tid).status = st) := by
  unfold setUserRole
  rw [if_neg (by simp [hmgr])]
  refine ⟨rfl, rfl, rfl, rfl, rfl, by simp, fun a ha => by simp [ha], ?_⟩
  intro tid now2 st hrole htid hassigned
  refine ⟨by simp [hassigned, hrole], ?_, ?_⟩
  · unfold updateStatus
    rw [if_neg htid, if_pos (Or.inr (Or.inl hassigned))]
  · unfold updateStatus
    rw [if_neg htid, if_pos (Or.inr (Or.inl hassigned))]
    simp [setTicket]

/-- Witness for C10 on sAssigned (ticket 1 assigned to Manager 3): the
deployer demotes 3 to User; only that role entry changes, the assignee field
still reads 3 (now a plain User), and 3 can still updateStatus ticket 1. -/
theorem setUserRole_frame_witness :
    sAssigned.userRoles 1 = UserRole.Manager ∧
    (setUserRole sAssigned 1 3 UserRole.User).2 = none ∧
    (setUserRole sAssigned 1 3 UserRole.User).1.tickets = sAssigned.tickets ∧
    (setUserRole sAssigned 1 3 UserRole.User).1.userRoles 3 = UserRole.User ∧
    (setUserRole sAssigned 1 3 UserRole.User).1.userRoles
      (((setUserRole sAssigned 1 3 UserRole.User).1.tickets 1).assignedTo) =
        UserRole.User ∧
    (updateStatus (setUserRole sAssigned 1 3 UserRole.User).1 3 15 1
      TicketStatus.Resolved).2 = none ∧
    ((updateStatus (setUserRole sAssigned 1 3 UserRole.User).1 3 15 1
      TicketStatus.Resolved).1.tickets 1).status = TicketStatus.Resolved := by
  have h := setUserRole_frame sAssigned 1 3 UserRole.User (by decide)
  have hsc := h.2.2.2.2.2.2.2 1 15 TicketStatus.Resolved rfl (by decide) (by decide)
  exact ⟨by decide, h.1, h.2.1, h.2.2.2.2.2.1, hsc.1, hsc.2.1, hsc.2.2⟩

/-- C3 fails on the code: the reachable storage in which the sole Manager
(the deployer) has demoted themself to User holds no Manager at all —
setUserRole does not protect the last Manager. -/
theorem manager_invariant_cex :
    ¬ ∀ s, Reachable s → ∃ a, s.userRoles a = UserRole.Manager := by
  intro h
  obtain ⟨a, ha⟩ := h (applyOps (initState 1) [Op.setRole 1 1 UserRole.User])
    ⟨1, [Op.setRole 1 1 UserRole.User], rfl⟩
  simp only [applyOps, List.foldl, applyOp, setUserRole, initState] at ha
  split_ifs at ha <;> simp_all

/-- C3 amended: the deployer is seeded as Manager at initialization, and
every operation other than setUserRole leaves the role table (hence the
existence of a Manager) unchanged; only setUserRole can remove the last
Manager, and nothing stops it from doing so. -/
theorem manager_seed_and_roles_frame (deployer : Address) (s : BlockDesk) (op : Op)
    (hop : ∀ sender user role, op ≠ Op.setRole sender user role) :
    (initState deployer).userRoles deployer = UserRole.Manager ∧
    (applyOp s op).1.userRoles = s.userRoles := by
  refine ⟨by simp [initState], ?_⟩
  cases op with
  | create sender now t d a => rfl
  | update sender now tid st =>
    show (updateStatus s sender now tid st).1.userRoles = s.userRoles
    unfold updateStatus
    split_ifs <;> rfl
  | assign sender now tid who =>
    show (assignTicket s sender now tid who).1.userRoles = s.userRoles
    unfold assignTicket
    split_ifs <;> rfl
  | resolve sender now tid =>
    show (resolveTicket s sender now tid).1.userRoles = s.userRoles
    unfold resolveTicket
    split_ifs <;> rfl
  | close sender now tid =>
    show (closeTicket s sender now tid).1.userRoles = s.userRoles
    unfold closeTicket
    split_ifs <;> rfl
  | reopen sender now tid =>
    show (reopenTicket s sender now tid).1.userRoles = s.userRoles
    unfold reopenTicket
    split_ifs <;> rfl
  | comment sender now tid content =>
    show (addComment s sender now tid content).1.userRoles = s.userRoles
    unfold addComment
    split_ifs <;> rfl
  | setRole sender user role => exact absurd rfl (hop sender user role)

/-- Witness for the amended C3: a resolveTicket call is not a setUserRole
call and indeed leaves the role table of the fresh deployment unchanged. -/
theorem manager_seed_and_roles_frame_witness :
    (initState 1).userRoles 1 = UserRole.Manager ∧
    (applyOp s0 (Op.resolve 2 5 1)).1.userRoles = s0.userRoles :=
  manager_seed_and_roles_frame 1 s0 (Op.resolve 2 5 1)
    (by intro a b c h; exact Op.noConfusion h)
